import Mathlib

/-!
Shallow embedding of the trifoia-config layered configuration resolver.

The repository contains two near-duplicate resolver implementations:
`loadConfig` in `src/config.js` (embedded below in namespace `ConfigJs`) and
`loadConfig` in the unnamed source file `src/unnamed/part_000` (namespace
`Part000`).  The helper functions `checkExists` and
`checkForUndefinedRecursive` are textually identical in both files and are
embedded once, at top level.

Modelling conventions:
* JavaScript values are the inductive type `JVal`.  Numbers are modelled by
  integers plus a separate `vnan` constructor; the fractional/exponent part of
  JavaScript numbers is outside the model (no claim depends on it).
* Configuration objects are two-level association lists
  (category name → key name → value), matching the documented data model
  (category → key → value) over which the double `for-in` loop of the source
  iterates; association-list order models `for-in` insertion order.
* The two `require` calls (SourceLoader collaborator) are modelled by a
  `Sources` record holding the results of loading `.conf.default.js` and
  `.conf.js` from the working directory; `none` models a throwing `require`.
* `process.env` (EnvironmentReader collaborator) is a function
  `String → Option String`.
* `console.error` logging is omitted (it does not affect any return value).
-/

/-- JavaScript values, restricted to what the resolver manipulates.
Numbers are integers in this model; `vnan` is JavaScript's NaN. -/
inductive JVal where
  | vundef : JVal
  | vnull : JVal
  | vbool : Bool → JVal
  | vnum : Int → JVal
  | vnan : JVal
  | vstr : String → JVal
  | vobj : List (String × JVal) → JVal
  | varr : List JVal → JVal

/-- A configuration category: key name → value (`for-in` order). -/
abbrev ConfigCategory := List (String × JVal)

/-- A two-level configuration object: category name → category. -/
abbrev Schema := List (String × ConfigCategory)

/-- The process environment: variable name → value (`undefined` = `none`). -/
abbrev Env := String → Option String

/-- JavaScript truthiness: `undefined`, `null`, `false`, `0`, `NaN` and the
empty string are falsy; every other value (all objects included) is truthy. -/
def jsTruthy : JVal → Bool
  | .vundef => false
  | .vnull => false
  | .vbool b => b
  | .vnum n => n != 0
  | .vnan => false
  | .vstr s => s != ""
  | .vobj _ => true
  | .varr _ => true

/-- `typeof v === 'undefined'`. -/
def isUndef : JVal → Bool
  | .vundef => true
  | _ => false

/-- Digits of a decimal numeral folded into a natural number. -/
def digitsToNat (cs : List Char) : Nat :=
  cs.foldl (fun n c => n * 10 + (c.toNat - 48)) 0

/-- Whitespace skipped by `JSON.parse` and by `Number` on strings. -/
def jsWhitespace (c : Char) : Bool :=
  c = ' ' || c = '\t' || c = '\n' || c = '\r'

/-- Strip leading and trailing whitespace from a character list. -/
def trimChars (cs : List Char) : List Char :=
  ((cs.dropWhile jsWhitespace).reverse.dropWhile jsWhitespace).reverse

/-- The JSON integer-numeral grammar: an unsigned decimal numeral with no
leading zero (except the single digit `0`).  Fractional and exponent forms
are outside this model and are treated as parse failures. -/
def jsonNatOfChars : List Char → Option Nat
  | [] => none
  | ['0'] => some 0
  | c :: cs =>
    if c.isDigit && c != '0' && cs.all Char.isDigit then
      some (digitsToNat (c :: cs))
    else
      none

/-- An optionally `-`-signed JSON integer numeral. -/
def jsonIntOfChars : List Char → Option Int
  | '-' :: cs => (jsonNatOfChars cs).map (fun n => -(n : Int))
  | cs => (jsonNatOfChars cs).map (fun n => (n : Int))

/-- A JSON string literal: double-quoted, with escapes and embedded quotes
outside the model (treated as parse failures). -/
def jsonStringLit (cs : List Char) : Option String :=
  match cs with
  | '"' :: rest =>
    match rest.getLast? with
    | some '"' =>
      let inner := rest.dropLast
      if rest.length ≥ 1 && inner.all (fun c => c != '"' && c != '\\') then
        some (String.mk inner)
      else
        none
    | _ => none
  | _ => none

/-- Model of `JSON.parse`, restricted to the scalar fragment the resolver's
coercion step can meet: `null`, `true`, `false`, integer numerals and simple
string literals.  Composite JSON texts (objects, arrays) and the remaining
scalar forms are treated as parse failures (`none` = the thrown exception). -/
def jsonParse (s : String) : Option JVal :=
  let cs := trimChars s.toList
  if cs = "null".toList then some .vnull
  else if cs = "true".toList then some (.vbool true)
  else if cs = "false".toList then some (.vbool false)
  else
    match jsonIntOfChars cs with
    | some n => some (.vnum n)
    | none => (jsonStringLit cs).map .vstr

/-- A signed decimal integer numeral as accepted by JavaScript's `Number`
on strings (leading zeros allowed, optional `+`/`-` sign); float, hex and
`Infinity` forms are outside this model (treated as NaN). -/
def jsNumOfChars : List Char → Option Int
  | [] => none
  | '-' :: cs =>
    if cs ≠ [] && cs.all Char.isDigit then some (-(digitsToNat cs : Int)) else none
  | '+' :: cs =>
    if cs ≠ [] && cs.all Char.isDigit then some ((digitsToNat cs : Int)) else none
  | cs =>
    if cs.all Char.isDigit then some ((digitsToNat cs : Int)) else none

/-- `Number(s)` for a string `s`: whitespace-only gives `0`, a decimal
numeral gives its value, anything else gives NaN. -/
def strToNumber (s : String) : JVal :=
  match jsNumOfChars (trimChars s.toList) with
  | some n => .vnum n
  | none => if trimChars s.toList = [] then .vnum 0 else .vnan

/-- JavaScript's `Number(v)` conversion: `Number(true) = 1`,
`Number(false) = Number(null) = 0`, `Number(undefined) = NaN`, strings via
`strToNumber`.  Objects and arrays convert through `toPrimitive`, which is
outside this model (treated as NaN); note that in the resolver `Number` is
only ever applied to results of `jsonParse` or to raw strings, and the
modelled `jsonParse` never produces an object or array. -/
def jsToNumber : JVal → JVal
  | .vundef => .vnan
  | .vnull => .vnum 0
  | .vbool b => .vnum (if b then 1 else 0)
  | .vnum n => .vnum n
  | .vnan => .vnan
  | .vstr s => strToNumber s
  | .vobj _ => .vnan
  | .varr _ => .vnan

/-- The test `num !== NaN` from `src/config.js` line 99: in JavaScript,
strict (in)equality against NaN always reports "not equal" — NaN is not
strictly equal even to itself — so this test is true for every value. -/
def jsNeNaN (_num : JVal) : Bool := true

/-- The global `isNaN(num)` used by `src/unnamed/part_000` line 370:
converts its argument with `Number` and asks whether the result is NaN. -/
def jsIsNaN (num : JVal) : Bool :=
  match jsToNumber num with
  | .vnan => true
  | _ => false

/-- `checkExists(obj, categoryKey, valueKey)` from both source files:
`obj[categoryKey] && typeof obj[categoryKey][valueKey] !== 'undefined'`.
In this model `obj` is `Schema`-shaped, so `obj[categoryKey]` is either an
absent property (falsy) or a category object (truthy). -/
def checkExists (obj : Schema) (categoryKey valueKey : String) : Bool :=
  match obj.lookup categoryKey with
  | none => false
  | some cat =>
    match cat.lookup valueKey with
    | none => false
    | some v => !(isUndef v)

/-- `obj[categoryKey][valueKey]` for a `Schema`-shaped object (an absent
property reads as `undefined`). -/
def getProp (obj : Schema) (categoryKey valueKey : String) : JVal :=
  match obj.lookup categoryKey with
  | none => .vundef
  | some cat =>
    match cat.lookup valueKey with
    | none => .vundef
    | some v => v

mutual

/-- `checkForUndefinedRecursive(obj, originalKey)` from both source files
(identical in `src/config.js` lines 23–40 and `src/unnamed/part_000` lines
294–311): `false` as soon as an `undefined` value is reached, strings are
never recursed into, `for-in` recursion over the properties of objects and
the elements of arrays, `true` on every other value (`for-in` does not run
on non-indexed data types).  The `originalKey` parameter only feeds the
`console.error` diagnostic, which this model omits.  The `for-in` loop with
its early `return false` is the short-circuiting conjunction over the
properties (`checkFields`) or elements (`checkElems`). -/
def checkForUndefinedRecursive : JVal → Bool
  | .vundef => false
  | .vstr _ => true
  | .vobj fields => checkFields fields
  | .varr elems => checkElems elems
  | _ => true

/-- The `for-in` loop of `checkForUndefinedRecursive` over an object's
properties. -/
def checkFields : List (String × JVal) → Bool
  | [] => true
  | (_, v) :: rest => checkForUndefinedRecursive v && checkFields rest

/-- The `for-in` loop of `checkForUndefinedRecursive` over an array's
elements. -/
def checkElems : List JVal → Bool
  | [] => true
  | v :: rest => checkForUndefinedRecursive v && checkElems rest

end

mutual

/-- Specification-side predicate: some reachable own-property leaf of the
value is `undefined`. -/
def hasUndefinedLeaf : JVal → Bool
  | .vundef => true
  | .vstr _ => false
  | .vobj fields => hasUndefinedField fields
  | .varr elems => hasUndefinedElem elems
  | _ => false

/-- Some property of the field list has an `undefined` leaf. -/
def hasUndefinedField : List (String × JVal) → Bool
  | [] => false
  | (_, v) :: rest => hasUndefinedLeaf v || hasUndefinedField rest

/-- Some element of the list has an `undefined` leaf. -/
def hasUndefinedElem : List JVal → Bool
  | [] => false
  | v :: rest => hasUndefinedLeaf v || hasUndefinedElem rest

end

/-- The `this` referenced by `loadConfig`'s validation step.  `loadConfig`
is an arrow function at the top level of a CommonJS module, so `this` is the
module's initial `module.exports` object — an empty object (the later
`module.exports = loadConfig` reassignment does not change the object the
binding refers to). -/
def moduleThis : JVal := .vobj []

/-- The options bundle `opts`: `overrides` (absent = `none`) and
`disableEnvarParsing` (the source tests `opts.disableEnvarParsing !== true`,
so only the literal `true` disables parsing — modelled as a `Bool` with
absent ↦ `false`).  The `workingDir` option only selects which files the two
`require` calls read, and is absorbed into `Sources`. -/
structure ConfigOpts where
  overrides : Option Schema
  disableEnvarParsing : Bool

/-- The SourceLoader collaborator: the outcome of
`require(path.join(workingDir, '.conf.default.js'))` and
`require(path.join(workingDir, '.conf.js'))`.  `none` models a throwing
`require` (missing or unloadable file). -/
structure Sources where
  defaultSchema : Option Schema
  secretConfig : Option Schema

/-- The two errors `loadConfig` can raise: a propagated default-schema load
failure, and the `'Undefined configurations detected'` validation error. -/
inductive ConfigError where
  | loadError : ConfigError
  | undefinedConfigurations : ConfigError
deriving DecidableEq

/-- The environment variable name `` `conf_${categoryKey}_${valueKey}` ``. -/
def envVarName (categoryKey valueKey : String) : String :=
  "conf_" ++ categoryKey ++ "_" ++ valueKey

/-- `config.config && config.config.errorOnUndefined` evaluated on a
`Schema`-shaped object. -/
def errorOnUndefinedFlag (config : Schema) : Bool :=
  match config.lookup "config" with
  | none => false
  | some cat =>
    match cat.lookup "errorOnUndefined" with
    | none => false
    | some v => jsTruthy v

namespace ConfigJs

/-!
Embedding of `loadConfig` from `src/config.js` (lines 59–117).  The double
`for-in` loop mutates each `category[valueKey]` slot exactly once and reads
no slot it has written (the env branch's read-back of `category[valueKey]`
happens within the same key's iteration), so the in-place mutation is
modelled as a pure per-key map.
-/

/-- The environment-variable branch of the loop body (`src/config.js`
lines 87–100) applied to the raw environment string: assign the raw string,
then unless `disableEnvarParsing` is `true`, try `JSON.parse` (keeping the
string on failure) and then replace the value with `Number(value)` whenever
`num !== NaN` — which is always, NaN never being strictly equal to anything
(see `jsNeNaN`). -/
def coerceEnv (disableEnvarParsing : Bool) (s : String) : JVal :=
  if disableEnvarParsing = true then .vstr s
  else
    let v := match jsonParse s with
      | some parsed => parsed
      | none => .vstr s
    let num := jsToNumber v
    if jsNeNaN num then num else v

/-- The body of the inner `for-in` loop for one `categoryKey`/`valueKey`
slot holding value `v`: overrides, then environment, then secret config,
then the original value. -/
def resolveValue (opts : ConfigOpts) (secretConfig : Schema) (env : Env)
    (categoryKey valueKey : String) (v : JVal) : JVal :=
  let secretStep : JVal :=
    if checkExists secretConfig categoryKey valueKey then
      getProp secretConfig categoryKey valueKey
    else v
  let envStep : JVal :=
    match env (envVarName categoryKey valueKey) with
    | some s => if s ≠ "" then coerceEnv opts.disableEnvarParsing s else secretStep
    | none => secretStep
  match opts.overrides with
  | some o =>
    if checkExists o categoryKey valueKey then getProp o categoryKey valueKey
    else envStep
  | none => envStep

/-- The double `for-in` loop of `loadConfig` (lines 73–110). -/
def resolveSchema (opts : ConfigOpts) (secretConfig : Schema) (env : Env)
    (config : Schema) : Schema :=
  config.map fun entry =>
    (entry.1, entry.2.map fun p =>
      (p.1, resolveValue opts secretConfig env entry.1 p.1 p.2))

/-- `loadConfig(config, opts)` from `src/config.js`: a falsy `config`
argument is replaced by the loaded default schema (a failing load
propagates), a failing secret-config load is swallowed and replaced by `{}`,
the schema is resolved, and then the validation step checks
`config.config && config.config.errorOnUndefined &&
!checkForUndefinedRecursive(this)` — where `this` is `moduleThis`. -/
def loadConfig (config? : Option Schema) (opts : ConfigOpts) (srcs : Sources)
    (env : Env) : Except ConfigError Schema :=
  match config?, srcs.defaultSchema with
  | none, none => .error .loadError
  | none, some c =>
    let secretConfig := srcs.secretConfig.getD []
    let resolved := resolveSchema opts secretConfig env c
    if errorOnUndefinedFlag resolved && !(checkForUndefinedRecursive moduleThis) then
      .error .undefinedConfigurations
    else .ok resolved
  | some c, _ =>
    let secretConfig := srcs.secretConfig.getD []
    let resolved := resolveSchema opts secretConfig env c
    if errorOnUndefinedFlag resolved && !(checkForUndefinedRecursive moduleThis) then
      .error .undefinedConfigurations
    else .ok resolved

end ConfigJs

namespace Part000

/-!
Embedding of `loadConfig` from `src/unnamed/part_000` (lines 330–388).  It
is textually identical to the `src/config.js` version except for the numeric
coercion guard: `if (!isNaN(num))` (line 370) instead of `if (num !== NaN)`.
-/

/-- The environment-variable branch (`src/unnamed/part_000` lines 358–371):
as in `ConfigJs.coerceEnv`, but the numeric form is kept only when
`!isNaN(num)`. -/
def coerceEnv (disableEnvarParsing : Bool) (s : String) : JVal :=
  if disableEnvarParsing = true then .vstr s
  else
    let v := match jsonParse s with
      | some parsed => parsed
      | none => .vstr s
    let num := jsToNumber v
    if !(jsIsNaN num) then num else v

/-- The body of the inner `for-in` loop, as in `ConfigJs.resolveValue` but
with this file's coercion. -/
def resolveValue (opts : ConfigOpts) (secretConfig : Schema) (env : Env)
    (categoryKey valueKey : String) (v : JVal) : JVal :=
  let secretStep : JVal :=
    if checkExists secretConfig categoryKey valueKey then
      getProp secretConfig categoryKey valueKey
    else v
  let envStep : JVal :=
    match env (envVarName categoryKey valueKey) with
    | some s => if s ≠ "" then coerceEnv opts.disableEnvarParsing s else secretStep
    | none => secretStep
  match opts.overrides with
  | some o =>
    if checkExists o categoryKey valueKey then getProp o categoryKey valueKey
    else envStep
  | none => envStep

/-- The double `for-in` loop of `loadConfig` (lines 344–381). -/
def resolveSchema (opts : ConfigOpts) (secretConfig : Schema) (env : Env)
    (config : Schema) : Schema :=
  config.map fun entry =>
    (entry.1, entry.2.map fun p =>
      (p.1, resolveValue opts secretConfig env entry.1 p.1 p.2))

/-- `loadConfig(config, opts)` from `src/unnamed/part_000`. -/
def loadConfig (config? : Option Schema) (opts : ConfigOpts) (srcs : Sources)
    (env : Env) : Except ConfigError Schema :=
  match config?, srcs.defaultSchema with
  | none, none => .error .loadError
  | none, some c =>
    let secretConfig := srcs.secretConfig.getD []
    let resolved := resolveSchema opts secretConfig env c
    if errorOnUndefinedFlag resolved && !(checkForUndefinedRecursive moduleThis) then
      .error .undefinedConfigurations
    else .ok resolved
  | some c, _ =>
    let secretConfig := srcs.secretConfig.getD []
    let resolved := resolveSchema opts secretConfig env c
    if errorOnUndefinedFlag resolved && !(checkForUndefinedRecursive moduleThis) then
      .error .undefinedConfigurations
    else .ok resolved

end Part000

/-- The category/key shape of a configuration object: every category name
paired with its list of key names. -/
def shape (s : Schema) : List (String × List String) :=
  s.map fun entry => (entry.1, entry.2.map Prod.fst)

/-- `out[categoryKey][valueKey]` as an optional value (distinguishing an
absent slot from a present `undefined`). -/
def getVal (s : Schema) (categoryKey valueKey : String) : Option JVal :=
  (s.lookup categoryKey).bind fun cat => cat.lookup valueKey

/-- The overrides source supplies no defined value for the given
category/key pair: either no `overrides` option was passed, or
`checkExists` fails on it. -/
def overridesMiss (opts : ConfigOpts) (categoryKey valueKey : String) : Prop :=
  ∀ o, opts.overrides = some o → checkExists o categoryKey valueKey = false

/-- The environment supplies no value for the given category/key pair: the
variable `conf_<category>_<key>` is unset or empty (both are falsy). -/
def envMiss (env : Env) (categoryKey valueKey : String) : Prop :=
  env (envVarName categoryKey valueKey) = none ∨
    env (envVarName categoryKey valueKey) = some ""

/-- A `Schema`-shaped association list as the `JVal` object it models (used
to state what the undefined-check would see if it were handed the resolved
configuration object). -/
def schemaToVal (s : Schema) : JVal :=
  .vobj (s.map fun entry => (entry.1, JVal.vobj entry.2))

/-- `this` is the empty exports object, so the validation step's call
`checkForUndefinedRecursive(this)` always returns `true`. -/
lemma checkForUndefinedRecursive_moduleThis : checkForUndefinedRecursive moduleThis = true := rfl

/-- With a schema argument supplied, `loadConfig` from `src/config.js`
always succeeds and returns the resolved schema: the validation branch is
unreachable because the undefined-check is applied to `this`. -/
lemma configJs_loadConfig_some (S : Schema) (opts : ConfigOpts) (srcs : Sources) (env : Env) :
    ConfigJs.loadConfig (some S) opts srcs env =
      .ok (ConfigJs.resolveSchema opts (srcs.secretConfig.getD []) env S) := by
  simp [ConfigJs.loadConfig, checkForUndefinedRecursive_moduleThis]

/-- With a schema argument supplied, `loadConfig` from
`src/unnamed/part_000` always succeeds and returns the resolved schema. -/
lemma part000_loadConfig_some (S : Schema) (opts : ConfigOpts) (srcs : Sources) (env : Env) :
    Part000.loadConfig (some S) opts srcs env =
      .ok (Part000.resolveSchema opts (srcs.secretConfig.getD []) env S) := by
  simp [Part000.loadConfig, checkForUndefinedRecursive_moduleThis]

/-- Looking a key up in an association list mapped by a key-aware
value transformation. -/
lemma lookup_map_keyed {β γ : Type} (g : String → β → γ) (l : List (String × β)) (k : String) :
    (l.map fun p => (p.1, g p.1 p.2)).lookup k = (l.lookup k).map (g k) := by
  induction l with
  | nil => rfl
  | cons hd tl ih =>
    obtain ⟨a, b⟩ := hd
    by_cases h : k == a
    · have hk : k = a := eq_of_beq h
      simp [List.lookup, h, hk]
    · simp [List.lookup, h, ih]

/-- The value the resolved schema holds at a schema slot is the
`resolveValue` of the slot's original value. -/
lemma ConfigJs.getVal_resolveSchema (opts : ConfigOpts) (sec : Schema) (env : Env)
    (S : Schema) (ck vk : String) (cat : ConfigCategory) (d : JVal)
    (hck : S.lookup ck = some cat) (hvk : cat.lookup vk = some d) :
    getVal (ConfigJs.resolveSchema opts sec env S) ck vk =
      some (ConfigJs.resolveValue opts sec env ck vk d) := by
  unfold getVal ConfigJs.resolveSchema
  rw [lookup_map_keyed (fun c catv => catv.map fun p => (p.1, ConfigJs.resolveValue opts sec env c p.1 p.2)) S ck,
    hck]
  show (cat.map fun p => (p.1, ConfigJs.resolveValue opts sec env ck p.1 p.2)).lookup vk =
    some (ConfigJs.resolveValue opts sec env ck vk d)
  rw [lookup_map_keyed (fun v w => ConfigJs.resolveValue opts sec env ck v w) cat vk, hvk]
  rfl

/-- The overrides branch of the loop body: a defined override wins. -/
lemma ConfigJs.resolveValue_overrides (opts : ConfigOpts) (sec : Schema) (env : Env)
    (ck vk : String) (v : JVal) (o : Schema)
    (ho : opts.overrides = some o) (hex : checkExists o ck vk = true) :
    ConfigJs.resolveValue opts sec env ck vk v = getProp o ck vk := by
  unfold ConfigJs.resolveValue
  rw [ho]
  simp [hex]

/-- The environment branch: with no defined override and a truthy
environment string, the coerced environment value wins. -/
lemma ConfigJs.resolveValue_env (opts : ConfigOpts) (sec : Schema) (env : Env)
    (ck vk : String) (v : JVal) (s : String)
    (hov : overridesMiss opts ck vk)
    (henv : env (envVarName ck vk) = some s) (hs : s ≠ "") :
    ConfigJs.resolveValue opts sec env ck vk v = ConfigJs.coerceEnv opts.disableEnvarParsing s := by
  unfold ConfigJs.resolveValue
  cases ho : opts.overrides with
  | none => simp [henv, hs]
  | some o => simp [hov o ho, henv, hs]

/-- The secret-config branch: with no defined override and a falsy
environment value, a defined secret value wins. -/
lemma ConfigJs.resolveValue_secret (opts : ConfigOpts) (sec : Schema) (env : Env)
    (ck vk : String) (v : JVal)
    (hov : overridesMiss opts ck vk) (henv : envMiss env ck vk)
    (hex : checkExists sec ck vk = true) :
    ConfigJs.resolveValue opts sec env ck vk v = getProp sec ck vk := by
  unfold ConfigJs.resolveValue
  have hbranch :
      (match env (envVarName ck vk) with
        | some s => if s ≠ "" then ConfigJs.coerceEnv opts.disableEnvarParsing s
            else if checkExists sec ck vk then getProp sec ck vk else v
        | none => if checkExists sec ck vk then getProp sec ck vk else v) =
        getProp sec ck vk := by
    rcases henv with h | h <;> rw [h] <;> simp [hex]
  cases ho : opts.overrides with
  | none => exact hbranch
  | some o => simpa [hov o ho] using hbranch

/-- The default branch: with every source missing the original value is
kept. -/
lemma ConfigJs.resolveValue_default (opts : ConfigOpts) (sec : Schema) (env : Env)
    (ck vk : String) (v : JVal)
    (hov : overridesMiss opts ck vk) (henv : envMiss env ck vk)
    (hex : checkExists sec ck vk = false) :
    ConfigJs.resolveValue opts sec env ck vk v = v := by
  unfold ConfigJs.resolveValue
  have hbranch :
      (match env (envVarName ck vk) with
        | some s => if s ≠ "" then ConfigJs.coerceEnv opts.disableEnvarParsing s
            else if checkExists sec ck vk then getProp sec ck vk else v
        | none => if checkExists sec ck vk then getProp sec ck vk else v) = v := by
    rcases henv with h | h <;> rw [h] <;> simp [hex]
  cases ho : opts.overrides with
  | none => exact hbranch
  | some o => simpa [hov o ho] using hbranch

mutual

/-- The undefined-check succeeds exactly when no reachable leaf is
`undefined`. -/
lemma check_eq_no_undefined (v : JVal) :
    checkForUndefinedRecursive v = !hasUndefinedLeaf v := by
  cases v with
  | vobj fields =>
    rw [show checkForUndefinedRecursive (.vobj fields) = checkFields fields from rfl,
      show hasUndefinedLeaf (.vobj fields) = hasUndefinedField fields from rfl]
    exact checkFields_eq_no_undefined fields
  | varr elems =>
    rw [show checkForUndefinedRecursive (.varr elems) = checkElems elems from rfl,
      show hasUndefinedLeaf (.varr elems) = hasUndefinedElem elems from rfl]
    exact checkElems_eq_no_undefined elems
  | vundef => rfl
  | vnull => rfl
  | vbool b => rfl
  | vnum n => rfl
  | vnan => rfl
  | vstr s => rfl

/-- Field-list form of `check_eq_no_undefined`. -/
lemma checkFields_eq_no_undefined (l : List (String × JVal)) :
    checkFields l = !hasUndefinedField l := by
  cases l with
  | nil => rfl
  | cons hd tl =>
    obtain ⟨k, v⟩ := hd
    rw [show checkFields ((k, v) :: tl) = (checkForUndefinedRecursive v && checkFields tl) from rfl,
      show hasUndefinedField ((k, v) :: tl) = (hasUndefinedLeaf v || hasUndefinedField tl) from rfl,
      check_eq_no_undefined v, checkFields_eq_no_undefined tl]
    cases hasUndefinedLeaf v <;> cases hasUndefinedField tl <;> rfl

/-- Element-list form of `check_eq_no_undefined`. -/
lemma checkElems_eq_no_undefined (l : List JVal) :
    checkElems l = !hasUndefinedElem l := by
  cases l with
  | nil => rfl
  | cons v tl =>
    rw [show checkElems (v :: tl) = (checkForUndefinedRecursive v && checkElems tl) from rfl,
      show hasUndefinedElem (v :: tl) = (hasUndefinedLeaf v || hasUndefinedElem tl) from rfl,
      check_eq_no_undefined v, checkElems_eq_no_undefined tl]
    cases hasUndefinedLeaf v <;> cases hasUndefinedElem tl <;> rfl

end

/-- When overrides are absent, the secret config is empty and the
environment variable of a slot is unset, the loop body keeps the slot's
original value. -/
lemma ConfigJs.resolveValue_id (opts : ConfigOpts) (env : Env) (ck vk : String) (v : JVal)
    (hov : opts.overrides = none) (henv : env (envVarName ck vk) = none) :
    ConfigJs.resolveValue opts [] env ck vk v = v := by
  unfold ConfigJs.resolveValue
  rw [hov, henv]
  rfl

/-- Category-level identity for `ConfigJs.resolveSchema`. -/
lemma ConfigJs.resolveCat_id (opts : ConfigOpts) (env : Env) (ck : String)
    (cat : ConfigCategory)
    (hov : opts.overrides = none)
    (henv : ∀ vk v, (vk, v) ∈ cat → env (envVarName ck vk) = none) :
    (cat.map fun p => (p.1, ConfigJs.resolveValue opts [] env ck p.1 p.2)) = cat := by
  induction cat with
  | nil => rfl
  | cons hd tl ih =>
    obtain ⟨vk, v⟩ := hd
    rw [List.map_cons,
      ConfigJs.resolveValue_id opts env ck vk v hov (henv vk v (List.mem_cons_self _ _)),
      ih fun wk w hw => henv wk w (List.mem_cons_of_mem _ hw)]

/-- Schema-level identity for `ConfigJs.resolveSchema`. -/
lemma ConfigJs.resolveSchema_id (opts : ConfigOpts) (env : Env) (S : Schema)
    (hov : opts.overrides = none)
    (henv : ∀ ck cat vk v, (ck, cat) ∈ S → (vk, v) ∈ cat → env (envVarName ck vk) = none) :
    ConfigJs.resolveSchema opts [] env S = S := by
  unfold ConfigJs.resolveSchema
  induction S with
  | nil => rfl
  | cons hd tl ih =>
    obtain ⟨ck, cat⟩ := hd
    rw [List.map_cons]
    have hcat := ConfigJs.resolveCat_id opts env ck cat hov
      fun vk v hv => henv ck cat vk v (List.mem_cons_self _ _) hv
    rw [show ((ck, cat).1, (ck, cat).2.map fun p =>
        (p.1, ConfigJs.resolveValue opts [] env (ck, cat).1 p.1 p.2)) = (ck, cat)
      from by rw [show ((ck, cat).1 : String) = ck from rfl]; exact congrArg (Prod.mk ck) hcat]
    rw [ih fun dk dcat vk v hd hv => henv dk dcat vk v (List.mem_cons_of_mem _ hd) hv]

/-- With environment parsing disabled the two coercions coincide: both
assign the raw environment string. -/
lemma coerceEnv_agree_raw (s : String) :
    ConfigJs.coerceEnv true s = Part000.coerceEnv true s := rfl

/-- With environment parsing disabled the two loop bodies coincide. -/
lemma resolveValue_agree_raw (opts : ConfigOpts) (sec : Schema) (env : Env)
    (ck vk : String) (v : JVal) (h : opts.disableEnvarParsing = true) :
    ConfigJs.resolveValue opts sec env ck vk v = Part000.resolveValue opts sec env ck vk v := by
  unfold ConfigJs.resolveValue Part000.resolveValue
  rw [h]
  simp only [coerceEnv_agree_raw]

/-- With environment parsing disabled the two double loops coincide. -/
lemma resolveSchema_agree_raw (opts : ConfigOpts) (sec : Schema) (env : Env)
    (S : Schema) (h : opts.disableEnvarParsing = true) :
    ConfigJs.resolveSchema opts sec env S = Part000.resolveSchema opts sec env S := by
  unfold ConfigJs.resolveSchema Part000.resolveSchema
  simp only [resolveValue_agree_raw opts sec env _ _ _ h]

/-- Fixtures for the concrete evaluations below. -/
def emptyEnv : Env := fun _ => none

/-- A one-category, one-key schema whose `a.x` slot defaults to `null`. -/
def schemaAX : Schema := [("a", [("x", .vnull)])]

/-- An environment defining exactly `conf_a_x`. -/
def envAX (v : String) : Env := fun n => if n = "conf_a_x" then some v else none

/-- Options with no overrides and environment parsing enabled. -/
def plainOpts : ConfigOpts := ⟨none, false⟩

/-- Options with no overrides and environment parsing disabled. -/
def rawOpts : ConfigOpts := ⟨none, true⟩

/-- Sources for which both configuration files fail to load. -/
def noSources : Sources := ⟨none, none⟩

/-- An overrides object defining `a.x`. -/
def ovAX : Schema := [("a", [("x", .vstr "ov")])]

/-- A secret config defining `a.x`. -/
def secAX : Schema := [("a", [("x", .vstr "sec")])]

/-- A schema that enables `errorOnUndefined` and contains an `undefined`
leaf at `main.value`. -/
def badSchema : Schema :=
  [("config", [("errorOnUndefined", .vbool true)]), ("main", [("value", .vundef)])]

/-- C1: for every schema slot, `loadConfig` resolves in the exact priority
order overrides → environment variable `conf_<category>_<key>` → secret
config → schema default, the first source supplying a defined value winning:
a defined override is used verbatim; otherwise a truthy environment string
is used (coerced); otherwise a defined secret value is used; otherwise the
original default is kept. -/
theorem loadConfig_priority_order (S : Schema) (opts : ConfigOpts) (srcs : Sources)
    (env : Env) (ck vk : String) (cat : ConfigCategory) (d : JVal) (out : Schema)
    (hck : S.lookup ck = some cat) (hvk : cat.lookup vk = some d)
    (hout : ConfigJs.loadConfig (some S) opts srcs env = .ok out) :
    (∀ o, opts.overrides = some o → checkExists o ck vk = true →
      getVal out ck vk = some (getProp o ck vk)) ∧
    (overridesMiss opts ck vk → ∀ s, env (envVarName ck vk) = some s → s ≠ "" →
      getVal out ck vk = some (ConfigJs.coerceEnv opts.disableEnvarParsing s)) ∧
    (overridesMiss opts ck vk → envMiss env ck vk →
      checkExists (srcs.secretConfig.getD []) ck vk = true →
      getVal out ck vk = some (getProp (srcs.secretConfig.getD []) ck vk)) ∧
    (overridesMiss opts ck vk → envMiss env ck vk →
      checkExists (srcs.secretConfig.getD []) ck vk = false →
      getVal out ck vk = some d) := by
  rw [configJs_loadConfig_some] at hout
  injection hout with hout
  subst hout
  have hslot := ConfigJs.getVal_resolveSchema opts (srcs.secretConfig.getD []) env S ck vk cat d
    hck hvk
  refine ⟨?_, ?_, ?_, ?_⟩
  · intro o ho hex
    rw [hslot, ConfigJs.resolveValue_overrides _ _ _ _ _ _ o ho hex]
  · intro hov s henv hs
    rw [hslot, ConfigJs.resolveValue_env _ _ _ _ _ _ s hov henv hs]
  · intro hov henv hex
    rw [hslot, ConfigJs.resolveValue_secret _ _ _ _ _ _ hov henv hex]
  · intro hov henv hex
    rw [hslot, ConfigJs.resolveValue_default _ _ _ _ _ _ hov henv hex]

/-- Witness for `loadConfig_priority_order` at a concrete input with all
three higher sources present: the override wins. -/
theorem loadConfig_priority_order_holds :
    getVal [("a", [("x", JVal.vstr "ov")])] "a" "x" = some (getProp ovAX "a" "x") :=
  (loadConfig_priority_order schemaAX ⟨some ovAX, false⟩ ⟨none, some secAX⟩ (envAX "7")
    "a" "x" [("x", JVal.vnull)] JVal.vnull [("a", [("x", JVal.vstr "ov")])]
    rfl rfl rfl).1 ovAX rfl rfl

/-- C2: `badSchema` enables `errorOnUndefined` and its resolved form keeps
an `undefined` leaf (`main.value`), yet `loadConfig` succeeds and returns it:
the validation step applies the undefined-check to `this` — the module's
empty exports object, on which the check always passes — instead of to the
resolved schema, so the documented validation error is never raised. -/
theorem errorOnUndefined_never_raised :
    errorOnUndefinedFlag badSchema = true ∧
    hasUndefinedLeaf (schemaToVal badSchema) = true ∧
    ConfigJs.loadConfig (some badSchema) plainOpts noSources emptyEnv = .ok badSchema ∧
    checkForUndefinedRecursive moduleThis = true :=
  ⟨rfl, rfl, rfl, rfl⟩

/-- C3 counterexample: the environment string `"true"` does not resolve to
the boolean `true` — `JSON.parse` does yield `true`, but the numeric
coercion step then replaces it with `Number(true)`, i.e. the number `1`
(and `isNaN(1)` is false, so the number is kept). -/
theorem env_true_resolves_to_number_one :
    Part000.loadConfig (some schemaAX) plainOpts noSources (envAX "true") =
      .ok [("a", [("x", JVal.vnum 1)])] ∧
    JVal.vnum 1 ≠ JVal.vbool true :=
  ⟨rfl, fun h => nomatch h⟩

/-- C3 amended: under the `part_000` coercion (`!isNaN`), the environment
string `"42"` resolves to the number `42`; `"true"` resolves to the number
`1` (JSON-parsed to `true`, then replaced by `Number(true)`); `"not json"`
resolves to the literal string `"not json"`; and with `disableEnvarParsing`
set to `true`, `"42"` resolves to the literal string `"42"`. -/
theorem env_coercion_amended :
    Part000.loadConfig (some schemaAX) plainOpts noSources (envAX "42") =
      .ok [("a", [("x", JVal.vnum 42)])] ∧
    Part000.loadConfig (some schemaAX) plainOpts noSources (envAX "true") =
      .ok [("a", [("x", JVal.vnum 1)])] ∧
    Part000.loadConfig (some schemaAX) plainOpts noSources (envAX "not json") =
      .ok [("a", [("x", JVal.vstr "not json")])] ∧
    Part000.loadConfig (some schemaAX) rawOpts noSources (envAX "42") =
      .ok [("a", [("x", JVal.vstr "42")])] :=
  ⟨rfl, rfl, rfl, rfl⟩

/-- C4 counterexample: the two `loadConfig` definitions disagree on the
environment string `"not json"`: `src/config.js` (whose `num !== NaN` test
is always true) turns it into NaN, while `src/unnamed/part_000` keeps the
literal string. -/
theorem loadConfig_versions_differ :
    ConfigJs.loadConfig (some schemaAX) plainOpts noSources (envAX "not json") ≠
      Part000.loadConfig (some schemaAX) plainOpts noSources (envAX "not json") := by
  intro h
  have h1 : ConfigJs.loadConfig (some schemaAX) plainOpts noSources (envAX "not json") =
      .ok [("a", [("x", JVal.vnan)])] := rfl
  have h2 : Part000.loadConfig (some schemaAX) plainOpts noSources (envAX "not json") =
      .ok [("a", [("x", JVal.vstr "not json")])] := rfl
  rw [h1, h2] at h
  simp at h

/-- C4 amended: the two `loadConfig` definitions differ only in the numeric
step of environment coercion, so with `disableEnvarParsing` set to `true`
(when the coercion block is skipped) they agree on every schema, options
bundle, source outcome and environment snapshot. -/
theorem loadConfig_versions_agree_when_parsing_disabled (config? : Option Schema)
    (opts : ConfigOpts) (srcs : Sources) (env : Env)
    (h : opts.disableEnvarParsing = true) :
    ConfigJs.loadConfig config? opts srcs env = Part000.loadConfig config? opts srcs env := by
  cases config? with
  | some c =>
    rw [configJs_loadConfig_some, part000_loadConfig_some, resolveSchema_agree_raw _ _ _ _ h]
  | none =>
    obtain ⟨dd, ss⟩ := srcs
    cases dd with
    | none => rfl
    | some c =>
      rw [show ConfigJs.loadConfig none opts ⟨some c, ss⟩ env =
          ConfigJs.loadConfig (some c) opts ⟨some c, ss⟩ env from rfl,
        show Part000.loadConfig none opts ⟨some c, ss⟩ env =
          Part000.loadConfig (some c) opts ⟨some c, ss⟩ env from rfl,
        configJs_loadConfig_some, part000_loadConfig_some, resolveSchema_agree_raw _ _ _ _ h]

/-- Witness for `loadConfig_versions_agree_when_parsing_disabled` at a
concrete input. -/
theorem loadConfig_versions_agree_when_parsing_disabled_holds :
    ConfigJs.loadConfig (some schemaAX) rawOpts noSources (envAX "42") =
      Part000.loadConfig (some schemaAX) rawOpts noSources (envAX "42") :=
  loadConfig_versions_agree_when_parsing_disabled (some schemaAX) rawOpts noSources
    (envAX "42") rfl

/-- C5: with the overrides option absent, no environment variable set for
any of the schema's slots, and an empty (or unloadable) secret config,
`loadConfig` returns the schema with every leaf unchanged. -/
theorem resolve_identity_without_sources (S : Schema) (opts : ConfigOpts)
    (srcs : Sources) (env : Env)
    (hov : opts.overrides = none)
    (hsec : srcs.secretConfig = none ∨ srcs.secretConfig = some [])
    (henv : ∀ ck cat vk v, (ck, cat) ∈ S → (vk, v) ∈ cat → env (envVarName ck vk) = none) :
    ConfigJs.loadConfig (some S) opts srcs env = .ok S := by
  rw [configJs_loadConfig_some]
  have h0 : srcs.secretConfig.getD [] = [] := by
    rcases hsec with h | h <;> rw [h] <;> rfl
  rw [h0, ConfigJs.resolveSchema_id opts env S hov henv]

/-- Witness for `resolve_identity_without_sources` at a concrete schema. -/
theorem resolve_identity_without_sources_holds :
    ConfigJs.loadConfig (some schemaAX) plainOpts noSources emptyEnv = .ok schemaAX :=
  resolve_identity_without_sources schemaAX plainOpts noSources emptyEnv rfl (Or.inl rfl)
    fun _ _ _ _ _ _ => rfl

/-- C6: whatever the overrides, sources and environment contain, a
successful `loadConfig` run returns an object with exactly the category/key
shape of the input schema: categories and keys are never added or removed,
only values replaced. -/
theorem resolve_preserves_schema_shape (S : Schema) (opts : ConfigOpts) (srcs : Sources)
    (env : Env) (out : Schema)
    (hout : ConfigJs.loadConfig (some S) opts srcs env = .ok out) :
    shape out = shape S := by
  rw [configJs_loadConfig_some] at hout
  injection hout with hout
  subst hout
  simp [shape, ConfigJs.resolveSchema, List.map_map, Function.comp]

/-- Witness for `resolve_preserves_schema_shape` on a run in which the
environment rewrites a value. -/
theorem resolve_preserves_schema_shape_holds :
    shape [("a", [("x", JVal.vnum 7)])] = shape schemaAX :=
  resolve_preserves_schema_shape schemaAX plainOpts noSources (envAX "7")
    [("a", [("x", JVal.vnum 7)])] rfl

/-- C7: a failing secret-config load is swallowed: `loadConfig` behaves
exactly as if the secret config were the empty object, for every schema
argument, options bundle, default-schema outcome and environment. -/
theorem missing_secret_config_treated_as_empty (config? : Option Schema)
    (opts : ConfigOpts) (d : Option Schema) (env : Env) :
    ConfigJs.loadConfig config? opts ⟨d, none⟩ env =
      ConfigJs.loadConfig config? opts ⟨d, some []⟩ env := by
  cases config? <;> cases d <;> rfl

/-- C8: with no schema argument and a failing default-schema load,
`loadConfig` fails with the load error, whatever the options, secret-config
outcome and environment. -/
theorem missing_default_schema_fatal (opts : ConfigOpts) (sec : Option Schema) (env : Env) :
    ConfigJs.loadConfig none opts ⟨none, sec⟩ env = .error .loadError := rfl

/-- C9: the undefined-check returns `true` on every string (strings are
opaque), and on any value it returns `false` exactly when some reachable
own-property leaf is `undefined`. -/
theorem undefined_check_spec (v : JVal) :
    (∀ s, v = JVal.vstr s → checkForUndefinedRecursive v = true) ∧
    (checkForUndefinedRecursive v = false ↔ hasUndefinedLeaf v = true) := by
  constructor
  · rintro s rfl
    rfl
  · rw [check_eq_no_undefined v]
    cases hasUndefinedLeaf v <;> simp

/-- Witness for `undefined_check_spec` at concrete values. -/
theorem undefined_check_spec_holds :
    checkForUndefinedRecursive (JVal.vstr "") = true ∧
    checkForUndefinedRecursive (JVal.vobj [("a", JVal.vobj [("b", JVal.vundef)])]) = false :=
  ⟨(undefined_check_spec (JVal.vstr "")).1 "" rfl,
   (undefined_check_spec (JVal.vobj [("a", JVal.vobj [("b", JVal.vundef)])])).2.mpr rfl⟩

/-- C10: the undefined-check treats `null` as fully defined — it returns
`true` on `null` itself and on every value without an `undefined` leaf
(null-valued leaves included), so only `undefined` can fail the check. -/
theorem undefined_check_null_defined (v : JVal) (h : hasUndefinedLeaf v = false) :
    checkForUndefinedRecursive JVal.vnull = true ∧ checkForUndefinedRecursive v = true :=
  ⟨rfl, by rw [check_eq_no_undefined v, h]; rfl⟩

/-- Witness for `undefined_check_null_defined` on an object whose leaves
are `null`. -/
theorem undefined_check_null_defined_holds :
    checkForUndefinedRecursive JVal.vnull = true ∧
    checkForUndefinedRecursive
      (JVal.vobj [("a", JVal.vnull), ("b", JVal.vobj [("c", JVal.vnull)])]) = true :=
  undefined_check_null_defined
    (JVal.vobj [("a", JVal.vnull), ("b", JVal.vobj [("c", JVal.vnull)])]) rfl
